import Mathlib

/-!
# Verification of the tribunal-kit security scanner

Shallow embedding of `.agent/scripts/security_scan.py`: the signature
catalog (`PATTERNS`), the per-line matcher (`scan_file`'s inner loop), the
directory walker with excluded-directory pruning (`scan_directory` over
`os.walk`), the display filter (`print_findings`) and the process verdict
(`main`).  Strings are modelled as Lean `String` (a list of characters,
matching Python's per-character slicing and 1-based line numbering);
regular-expression matching is modelled by an executable backtracking
matcher over a regex AST transcribed rule-by-rule from the Python source.
Recursion over the directory tree and inside the matcher is fuel-indexed
(structurally recursive, hence kernel-computable); the fuel only bounds
nesting depth / backtracking depth, and every theorem below holds for
every fuel value.
-/

namespace SecurityScan

/-! ## Character-level helpers (Python `str.strip`, `str.startswith`, slicing) -/

/-- ASCII whitespace stripped by Python `str.strip()`. -/
def pySpace (c : Char) : Bool :=
  c == ' ' || c == '\t' || c == '\n' || c == '\r' || c == '\x0b' || c == '\x0c'

/-- Python `line.strip()` on the character list. -/
def stripChars (cs : List Char) : List Char :=
  ((cs.dropWhile pySpace).reverse.dropWhile pySpace).reverse

/-- Python `line.strip()`. -/
def strip (s : String) : String := ⟨stripChars s.data⟩

/-- Does the first list start with the second (Python `str.startswith`)? -/
def listStartsWith : List Char → List Char → Bool
  | _, [] => true
  | [], _ :: _ => false
  | c :: cs, d :: ds => c == d && listStartsWith cs ds

/-- Python `s[:n]` — Python slice by characters. -/
def strTake (n : Nat) (s : String) : String := ⟨s.data.take n⟩

/-- Python `len(s)` in characters. -/
def strLen (s : String) : Nat := s.data.length

/-- Python `stripped.startswith("//") or stripped.startswith("#") or stripped.startswith("*")`
(security_scan.py line 111). -/
def isComment (s : String) : Bool :=
  listStartsWith s.data ['/', '/'] || listStartsWith s.data ['#'] ||
    listStartsWith s.data ['*']

/-! ## Regex AST and matcher

A small executable regex engine covering exactly the constructs used by
the 22 patterns in `PATTERNS`: literals, character classes (possibly
negated), `.`, `\b`, concatenation, alternation, `*` (and the derived
`+` and `{n,}`), all evaluated with `re.IGNORECASE` as in
`re.search(pattern, stripped, re.IGNORECASE)` (line 115). -/

inductive RE where
  | eps
  | lit (c : Char)
  | cls (neg : Bool) (ranges : List (Char × Char))
  | anyc
  | wb
  | seq (a b : RE)
  | alt (a b : RE)
  | star (r : RE)
deriving Repr

/-- Size of a regex AST, used to budget matcher fuel. -/
def reSize : RE → Nat
  | .eps => 1
  | .lit _ => 1
  | .cls _ _ => 1
  | .anyc => 1
  | .wb => 1
  | .seq a b => reSize a + reSize b + 1
  | .alt a b => reSize a + reSize b + 1
  | .star r => reSize r + 1

def chLe (a b : Char) : Bool := decide (a.val.toNat ≤ b.val.toNat)

/-- Case-insensitive literal comparison (`re.IGNORECASE`). -/
def chEq (a b : Char) : Bool := a.toLower == b.toLower

/-- Case-insensitive character-class membership. -/
def clsMatch (neg : Bool) (ranges : List (Char × Char)) (c : Char) : Bool :=
  let hit := ranges.any fun p =>
    (chLe p.1 c && chLe c p.2) || (chLe p.1 c.toLower && chLe c.toLower p.2) ||
      (chLe p.1 c.toUpper && chLe c.toUpper p.2)
  if neg then !hit else hit

/-- Python `\w` (ASCII): letters, digits, underscore. -/
def isWordChar (c : Char) : Bool := c.isAlphanum || c == '_'

def isWordOpt : Option Char → Bool
  | none => false
  | some c => isWordChar c

/-- Python `\b`: word boundary between the previous character and the rest. -/
def atBoundary (prev : Option Char) (s : List Char) : Bool :=
  isWordOpt prev != isWordOpt s.head?

/-- All suffixes reachable by matching `re` at the front of `s` (with the
character just before `s`, for `\b`).  Star iterations must consume at
least one character, so `fuel ≥ (|s|+2)·(reSize re + 2)` never runs out. -/
def msufs : Nat → RE → Option Char → List Char → List (Option Char × List Char)
  | 0, _, _, _ => []
  | _ + 1, .eps, p, s => [(p, s)]
  | _ + 1, .lit c, _, s =>
    match s with
    | [] => []
    | d :: rest => if chEq c d then [(some d, rest)] else []
  | _ + 1, .cls neg ranges, _, s =>
    match s with
    | [] => []
    | d :: rest => if clsMatch neg ranges d then [(some d, rest)] else []
  | _ + 1, .anyc, _, s =>
    match s with
    | [] => []
    | d :: rest => [(some d, rest)]
  | _ + 1, .wb, p, s => if atBoundary p s then [(p, s)] else []
  | fuel + 1, .seq a b, p, s =>
    (msufs fuel a p s).flatMap fun pr => msufs fuel b pr.1 pr.2
  | fuel + 1, .alt a b, p, s => msufs fuel a p s ++ msufs fuel b p s
  | fuel + 1, .star r, p, s =>
    (p, s) :: ((msufs fuel r p s).flatMap fun pr =>
      if pr.2.length < s.length then msufs fuel (.star r) pr.1 pr.2 else [])

/-- Can `re` match a prefix of `s` here? -/
def matchHere (re : RE) (prev : Option Char) (s : List Char) : Bool :=
  !(msufs ((s.length + 2) * (reSize re + 2)) re prev s).isEmpty

/-- Try `matchHere` at every start position (the semantics of `re.search`). -/
def searchAux (re : RE) : Option Char → List Char → Bool
  | prev, [] => matchHere re prev []
  | prev, c :: rest => matchHere re prev (c :: rest) || searchAux re (some c) rest

/-- Python `re.search(pattern, s, re.IGNORECASE) is not None`. -/
def reSearch (re : RE) (s : String) : Bool := searchAux re none s.data

/-! ## The signature catalog (`PATTERNS`, security_scan.py lines 58–94) -/

/-- A sequence of literal characters (escaped metacharacters in the Python
source, e.g. `\.`, denote their literal character and are transcribed as
literals here). -/
def rstr (s : String) : RE := (s.data.map RE.lit).foldr RE.seq RE.eps

def rcat (l : List RE) : RE := l.foldr RE.seq RE.eps

def ror : List RE → RE
  | [] => RE.eps
  | [r] => r
  | r :: s :: rest => RE.alt r (ror (s :: rest))

/-- Python `\s` (ASCII portion, sufficient for single source lines). -/
def wsCls : RE :=
  RE.cls false [(' ', ' '), ('\t', '\t'), ('\n', '\n'), ('\r', '\r'),
    ('\x0b', '\x0b'), ('\x0c', '\x0c')]

/-- Python `\s*` -/
def ws0 : RE := RE.star wsCls

/-- Python `\s+` -/
def ws1 : RE := RE.seq wsCls (RE.star wsCls)

/-- The backtick character (0x60). -/
def btick : Char := Char.ofNat 96

/-- The single-quote character (0x27). -/
def squote : Char := Char.ofNat 39

/-- Python `["\']` -/
def quoteCls : RE := RE.cls false [('"', '"'), (squote, squote)]

/-- Python `[^"\']` -/
def notQuoteCls : RE := RE.cls true [('"', '"'), (squote, squote)]

def rplus (r : RE) : RE := RE.seq r (RE.star r)

/-- Python `{n,}` — at least `n` repetitions. -/
def ratLeast (n : Nat) (r : RE) : RE := RE.seq (rcat (List.replicate n r)) (RE.star r)

/-- Pattern definitions `(regex, severity, category, message)`, transcribed
in order from `PATTERNS` in security_scan.py. -/
def PATTERNS : List (RE × String × String × String) := [
  -- (?:password|passwd|pwd)\s*=\s*["\'][^"\']+["\']
  (rcat [ror [rstr "password", rstr "passwd", rstr "pwd"], ws0, RE.lit '=', ws0,
      quoteCls, rplus notQuoteCls, quoteCls],
    "critical", "Hardcoded Secret", "Hardcoded password detected"),
  -- (?:api_key|apikey|api_secret)\s*=\s*["\'][^"\']+["\']
  (rcat [ror [rstr "api_key", rstr "apikey", rstr "api_secret"], ws0, RE.lit '=', ws0,
      quoteCls, rplus notQuoteCls, quoteCls],
    "critical", "Hardcoded Secret", "Hardcoded API key detected"),
  -- (?:secret|token|auth_token)\s*=\s*["\'][A-Za-z0-9+/=]{16,}["\']
  (rcat [ror [rstr "secret", rstr "token", rstr "auth_token"], ws0, RE.lit '=', ws0,
      quoteCls,
      ratLeast 16 (RE.cls false [('A', 'Z'), ('a', 'z'), ('0', '9'), ('+', '+'),
        ('/', '/'), ('=', '=')]),
      quoteCls],
    "critical", "Hardcoded Secret", "Hardcoded secret/token detected"),
  -- (?:PRIVATE_KEY|private_key)\s*=\s*["\']
  (rcat [ror [rstr "PRIVATE_KEY", rstr "private_key"], ws0, RE.lit '=', ws0, quoteCls],
    "critical", "Hardcoded Secret", "Hardcoded private key detected"),
  -- (?:query|execute|raw)\s*\(\s*[`"\'].*\$\{
  (rcat [ror [rstr "query", rstr "execute", rstr "raw"], ws0, RE.lit '(', ws0,
      RE.cls false [(btick, btick), ('"', '"'), (squote, squote)],
      RE.star RE.anyc, RE.lit '$', RE.lit '\x7b'],
    "high", "SQL Injection", "String interpolation in SQL query — use parameterized queries"),
  -- (?:query|execute|raw)\s*\(\s*["\'].*\+\s*(?:req|input|params|body)
  (rcat [ror [rstr "query", rstr "execute", rstr "raw"], ws0, RE.lit '(', ws0,
      quoteCls, RE.star RE.anyc, RE.lit '+', ws0,
      ror [rstr "req", rstr "input", rstr "params", rstr "body"]],
    "high", "SQL Injection", "String concatenation with user input in SQL"),
  -- \.raw\s*\(\s*`
  (rcat [RE.lit '.', rstr "raw", ws0, RE.lit '(', ws0, RE.lit btick],
    "medium", "SQL Injection", "Raw query with template literal — verify inputs are sanitized"),
  -- \.innerHTML\s*=
  (rcat [RE.lit '.', rstr "innerHTML", ws0, RE.lit '='],
    "high", "XSS", "Direct innerHTML assignment — use textContent or a sanitizer"),
  -- dangerouslySetInnerHTML
  (rstr "dangerouslySetInnerHTML",
    "medium", "XSS", "dangerouslySetInnerHTML used — ensure input is sanitized"),
  -- document\.write\s*\(
  (rcat [rstr "document.write", ws0, RE.lit '('],
    "high", "XSS", "document.write() is an XSS vector"),
  -- \beval\s*\(
  (rcat [RE.wb, rstr "eval", ws0, RE.lit '('],
    "high", "Code Injection", "eval() is a code injection vector — avoid entirely"),
  -- new\s+Function\s*\(
  (rcat [rstr "new", ws1, rstr "Function", ws0, RE.lit '('],
    "high", "Code Injection", "new Function() is equivalent to eval()"),
  -- child_process\.exec\s*\(
  (rcat [rstr "child_process.exec", ws0, RE.lit '('],
    "medium", "Command Injection", "exec() with unsanitized input is a command injection vector"),
  -- subprocess\.call\s*\(\s*[^,\]]*\bshell\s*=\s*True
  (rcat [rstr "subprocess.call", ws0, RE.lit '(', ws0,
      RE.star (RE.cls true [(',', ','), (']', ']')]), RE.wb, rstr "shell", ws0,
      RE.lit '=', ws0, rstr "True"],
    "high", "Command Injection", "subprocess with shell=True — use shell=False and pass args as list"),
  -- createHash\s*\(\s*["\']md5["\']
  (rcat [rstr "createHash", ws0, RE.lit '(', ws0, quoteCls, rstr "md5", quoteCls],
    "medium", "Weak Crypto", "MD5 is cryptographically broken — use SHA-256+"),
  -- createHash\s*\(\s*["\']sha1["\']
  (rcat [rstr "createHash", ws0, RE.lit '(', ws0, quoteCls, rstr "sha1", quoteCls],
    "medium", "Weak Crypto", "SHA-1 is deprecated — use SHA-256+"),
  -- Math\.random\s*\(
  (rcat [rstr "Math.random", ws0, RE.lit '('],
    "low", "Weak Randomness", "Math.random() is not cryptographically secure — use crypto.randomBytes()"),
  -- algorithms\s*:\s*\[\s*["\']none["\']
  (rcat [rstr "algorithms", ws0, RE.lit ':', ws0, RE.lit '[', ws0, quoteCls,
      rstr "none", quoteCls],
    "critical", "Auth Bypass", "JWT \x27none\x27 algorithm allows auth bypass"),
  -- verify\s*:\s*false
  (rcat [rstr "verify", ws0, RE.lit ':', ws0, rstr "false"],
    "high", "Auth Bypass", "SSL/TLS verification disabled"),
  -- rejectUnauthorized\s*:\s*false
  (rcat [rstr "rejectUnauthorized", ws0, RE.lit ':', ws0, rstr "false"],
    "high", "Auth Bypass", "TLS certificate validation disabled"),
  -- console\.log\s*\(.*(?:password|secret|token|key)
  (rcat [rstr "console.log", ws0, RE.lit '(', RE.star RE.anyc,
      ror [rstr "password", rstr "secret", rstr "token", rstr "key"]],
    "medium", "Info Disclosure", "Sensitive data logged to console"),
  -- \.env(?:\.local|\.production)
  (rcat [rstr ".env", ror [rstr ".local", rstr ".production"]],
    "low", "Info Disclosure", "Env file reference — ensure not committed to git")
]

/-! ## Findings and per-line scanning (`scan_file`, lines 97–125) -/

structure Finding where
  severity : String
  category : String
  file : String
  line : Nat
  message : String
  snippet : String
deriving DecidableEq, Repr

/-- Python `SEVERITY_RANK.get(sev, 3)` (line 55; `.get` default 3 as at lines 153–155). -/
def sevRank (s : String) : Nat :=
  if s = "critical" then 0
  else if s = "high" then 1
  else if s = "medium" then 2
  else if s = "low" then 3
  else 3

/-- The inner pattern loop of `scan_file` (lines 114–123): one Finding per
matching rule, in catalog order, snippet = `stripped[:120]`. -/
def scanLine (relPath : String) (lineNum : Nat) (stripped : String) : List Finding :=
  PATTERNS.flatMap fun r =>
    if reSearch r.1 stripped then
      [{ severity := r.2.1, category := r.2.2.1, file := relPath, line := lineNum,
         message := r.2.2.2, snippet := strTake 120 stripped }]
    else []

/-- One iteration of `scan_file`'s line loop (lines 108–123): strip, skip
comment lines, otherwise run the catalog. -/
def lineFindings (relPath : String) (lineNum : Nat) (line : String) : List Finding :=
  let stripped := strip line
  if isComment stripped then [] else scanLine relPath lineNum stripped

/-- Python `scan_file` (lines 97–125).  `content = none` models the
`except (IOError, PermissionError): return findings` path (lines 102–106):
an unreadable file contributes no findings.  Lenient decoding
(`errors="ignore"`, line 103) is modelled by contents always being a list
of decoded lines — decoding never fails. -/
def scanFile (content : Option (List String)) (relPath : String) : List Finding :=
  match content with
  | none => []
  | some lines => (List.enumFrom 1 lines).flatMap fun p => lineFindings relPath p.1 p.2

/-! ## File-system model and traversal (`scan_directory`, lines 128–148)

A directory tree: a file carries `some lines` (its decoded content) or
`none` (opening it raises `IOError`/`PermissionError`).  Paths are lists
of components.  `os.walk` is top-down: the current directory's files are
scanned first (in listing order), then the non-pruned subdirectories in
order; recursion depth is fuel-indexed and every theorem holds for every
fuel. -/

inductive Entry where
  | file (name : String) (content : Option (List String))
  | dir (name : String) (children : List Entry)
deriving Repr

def entryName : Entry → String
  | .file n _ => n
  | .dir n _ => n

/-- Python `SOURCE_EXTENSIONS` (line 34). -/
def SOURCE_EXTENSIONS : List String :=
  [".ts", ".tsx", ".js", ".jsx", ".py", ".go", ".java", ".rb"]

/-- Python `SKIP_DIRS` (line 35). -/
def SKIP_DIRS : List String :=
  ["node_modules", ".git", "dist", "build", "__pycache__", ".agent", ".next", "vendor"]

/-- Index of the last occurrence of `c` in `cs`, if any. -/
def lastIdxOf (c : Char) (cs : List Char) : Option Nat :=
  cs.enum.foldl (fun acc p => if p.2 == c then some p.1 else acc) none

/-- Python `Path(filename).suffix` (line 142): nonempty only when the last dot is
neither the first nor the last character of the name. -/
def extOf (name : String) : String :=
  match lastIdxOf '.' name.data with
  | some i => if 0 < i ∧ i + 1 < name.data.length then ⟨name.data.drop i⟩ else ""
  | none => ""

/-- Join path components with `/` (the shape `os.path.relpath` returns for
a file inside the scan root). -/
def joinPath : List String → String
  | [] => ""
  | [x] => x
  | x :: y :: rest => x ++ "/" ++ joinPath (y :: rest)

/-- Contribution of one directory entry to the file-scanning pass of the
current `os.walk` iteration (lines 141–146): only files whose extension is
in the allow-list are scanned. -/
def fileContrib (rp : List String) (e : Entry) : List Finding :=
  match e with
  | .file n c => if extOf n ∈ SOURCE_EXTENSIONS then scanFile c (joinPath (rp ++ [n])) else []
  | .dir _ _ => []

/-- Python `os.walk` with `dirs[:] = [d for d in dirs if d not in SKIP_DIRS]`
(lines 139–140): files of the current directory first, then recursion into
the non-pruned subdirectories in order. -/
def walkScanF : Nat → List Entry → List String → List Finding
  | 0, _, _ => []
  | fuel + 1, es, rp =>
    es.flatMap (fileContrib rp) ++ es.flatMap fun e =>
      match e with
      | .file _ _ => []
      | .dir n cs => if n ∈ SKIP_DIRS then [] else walkScanF fuel cs (rp ++ [n])

/-- Contribution of one subdirectory entry to the recursion pass. -/
def dirContrib (fuel : Nat) (rp : List String) (e : Entry) : List Finding :=
  match e with
  | .file _ _ => []
  | .dir n cs => if n ∈ SKIP_DIRS then [] else walkScanF fuel cs (rp ++ [n])

/-! ## Path lookup and explicit file subsets (lines 132–137) -/

def findByName (es : List Entry) (x : String) : Option Entry :=
  es.find? fun e => entryName e == x

/-- Resolve a component path inside the world tree. -/
def entryAt : Entry → List String → Option Entry
  | e, [] => some e
  | .file _ _, _ :: _ => none
  | .dir _ cs, x :: rest =>
    match findByName cs x with
    | some e => entryAt e rest
    | none => none

/-- Python `os.path.isfile` (line 135). -/
def isFileAt (w : Entry) (p : List String) : Bool :=
  match entryAt w p with
  | some (.file _ _) => true
  | _ => false

/-- Python `os.path.isdir` (line 190). -/
def isDirAt (w : Entry) (p : List String) : Bool :=
  match entryAt w p with
  | some (.dir _ _) => true
  | _ => false

def contentAt (w : Entry) (p : List String) : Option (List String) :=
  match entryAt w p with
  | some (.file _ c) => c
  | _ => none

/-- A caller-supplied target path: absolute, or relative to the root
(`os.path.isabs`, line 134). -/
structure TPath where
  isAbs : Bool
  comps : List String
deriving DecidableEq, Repr

/-- Python `os.path.join(project_root, fpath) if not os.path.isabs(fpath) else fpath`
(line 134). -/
def resolveTarget (rootPath : List String) (t : TPath) : List String :=
  if t.isAbs then t.comps else rootPath ++ t.comps

/-- Strip the longest common leading run of components. -/
def dropCommon : List String → List String → List String × List String
  | a :: as, b :: bs => if a = b then dropCommon as bs else (a :: as, b :: bs)
  | as, bs => (as, bs)

/-- Python `os.path.relpath(path, start)` on normalized absolute component paths. -/
def relpathComps (path start : List String) : List String :=
  let pr := dropCommon path start
  match List.replicate pr.2.length ".." ++ pr.1 with
  | [] => ["."]
  | l => l

/-- One target file's contribution (lines 133–136): resolve, check
`os.path.isfile`, and scan; nonexistent paths contribute nothing. -/
def targetScan (w : Entry) (rootPath : List String) (t : TPath) : List Finding :=
  let ap := resolveTarget rootPath t
  if isFileAt w ap then scanFile (contentAt w ap) (joinPath (relpathComps ap rootPath)) else []

/-- The children of the scan root; `os.walk` on a missing or non-directory
path yields nothing. -/
def rootChildren (w : Entry) (rootPath : List String) : List Entry :=
  match entryAt w rootPath with
  | some (.dir _ cs) => cs
  | _ => []

/-- Python `scan_directory` (lines 128–148).  Python's `if target_files:` is
truthiness: `None` and the empty list both fall through to the full walk. -/
def scanDirectory (fuel : Nat) (w : Entry) (rootPath : List String)
    (targets : Option (List TPath)) : List Finding :=
  match targets with
  | some ts =>
    if ts.isEmpty then walkScanF fuel (rootChildren w rootPath) []
    else ts.flatMap (targetScan w rootPath)
  | none => walkScanF fuel (rootChildren w rootPath) []

/-! ## Accumulator-threaded variant

`scan_directory` in the source accumulates into a per-invocation local
list via `all_findings.extend(...)`.  `scanDirectoryFrom` threads that
accumulator explicitly, starting from an arbitrary value `acc`, so that
freshness of each invocation (`acc = []`, line 130) and absence of
cross-invocation state can be stated and proved. -/

def walkScanFrom : Nat → List Finding → List Entry → List String → List Finding
  | 0, acc, _, _ => acc
  | fuel + 1, acc, es, rp =>
    let acc1 := es.foldl (fun a e => a ++ fileContrib rp e) acc
    es.foldl (fun a e =>
      match e with
      | .file _ _ => a
      | .dir n cs => if n ∈ SKIP_DIRS then a else walkScanFrom fuel a cs (rp ++ [n])) acc1

def scanDirectoryFrom (acc : List Finding) (fuel : Nat) (w : Entry)
    (rootPath : List String) (targets : Option (List TPath)) : List Finding :=
  match targets with
  | some ts =>
    if ts.isEmpty then walkScanFrom fuel acc (rootChildren w rootPath) []
    else ts.foldl (fun a t => a ++ targetScan w rootPath t) acc
  | none => walkScanFrom fuel acc (rootChildren w rootPath) []

/-! ## Reporting and verdict (`print_findings` lines 151–172, `main` lines 175–220) -/

/-- The filter of `print_findings` (line 154): keep findings whose severity
rank is at or above (numerically at most) the floor's rank. -/
def filteredFindings (findings : List Finding) (minSeverity : String) : List Finding :=
  findings.filter fun f => decide (sevRank f.severity ≤ sevRank minSeverity)

/-- The list `print_findings` renders (lines 154–155): filter, then stable
sort ascending by severity rank (`list.sort` is stable; modelled by
insertion sort, which is stable for a total preorder). -/
def displayedFindings (findings : List Finding) (minSeverity : String) : List Finding :=
  (filteredFindings findings minSeverity).insertionSort
    fun a b => sevRank a.severity ≤ sevRank b.severity

/-- Python `print_findings` returns the number of displayed findings (line 172). -/
def printFindingsCount (findings : List Finding) (minSeverity : String) : Nat :=
  (displayedFindings findings minSeverity).length

/-- Python `by_severity.get(sev, 0)` over the full unfiltered list (lines 203–205). -/
def countSeverity (findings : List Finding) (sev : String) : Nat :=
  (findings.filter fun f => f.severity == sev).length

/-- Python `main` (lines 175–220).  `none` models the fatal-configuration exit at
lines 190–192 (root missing or not a directory — `sys.exit(1)` before any
scanning).  Otherwise returns the displayed count and the exit code
`1 if by_severity.get("critical", 0) > 0 else 0` (line 220), computed from
the full unfiltered finding list. -/
def mainRun (fuel : Nat) (w : Entry) (rootPath : List String) (minSeverity : String)
    (targets : Option (List TPath)) : Option (Nat × Nat) :=
  if isDirAt w rootPath then
    let findings := scanDirectory fuel w rootPath targets
    some (printFindingsCount findings minSeverity,
      if 0 < countSeverity findings "critical" then 1 else 0)
  else none

/-- The process exit status of one invocation. -/
def mainExitCode (fuel : Nat) (w : Entry) (rootPath : List String) (minSeverity : String)
    (targets : Option (List TPath)) : Nat :=
  match mainRun fuel w rootPath minSeverity targets with
  | none => 1
  | some p => p.2

/-! ## Concrete inputs used by witnesses and counterexamples -/

/-- A small world: a project directory holding a source file with a
hardcoded password, a non-source-extension file with the same content, and
a dependency-cache directory with the same content. -/
def demoWorld : Entry :=
  .dir "" [.dir "proj" [
    .file "app.js" (some ["password = \"abc123\""]),
    .file "creds.txt" (some ["password = \"abc123\""]),
    .dir "node_modules" [.file "bad.js" (some ["password = \"abc123\""])]]]

def demoRoot : List String := ["proj"]

/-- The finding the scan of `demoWorld` produces for `proj/app.js`. -/
def demoFinding : Finding :=
  { severity := "critical", category := "Hardcoded Secret", file := "app.js", line := 1,
    message := "Hardcoded password detected", snippet := "password = \"abc123\"" }

/-- The finding an explicit-subset scan produces for `proj/creds.txt`. -/
def demoTxtFinding : Finding :=
  { severity := "critical", category := "Hardcoded Secret", file := "creds.txt", line := 1,
    message := "Hardcoded password detected", snippet := "password = \"abc123\"" }

/-! ## Shared helper lemmas -/

theorem flatMap_if_singleton {α β : Type} (l : List α) (p : α → Bool) (g : α → β) :
    (l.flatMap fun x => if p x then [g x] else []) = (l.filter p).map g := by
  induction l with
  | nil => rfl
  | cons x xs ih =>
    simp only [List.flatMap_cons, List.filter_cons]
    by_cases h : p x <;> simp [h, ih]

theorem foldl_append_acc {α β : Type} (g : α → List β) :
    ∀ (es : List α) (acc : List β),
      es.foldl (fun a e => a ++ g e) acc = acc ++ es.flatMap g := by
  intro es
  induction es with
  | nil => intro acc; simp
  | cons e es ih => intro acc; simp [ih]

theorem flatMap_congr_mem {α β : Type} {l : List α} {f g : α → List β}
    (h : ∀ x ∈ l, f x = g x) : l.flatMap f = l.flatMap g := by
  induction l with
  | nil => rfl
  | cons x xs ih =>
    simp only [List.flatMap_cons]
    rw [h x (List.mem_cons_self x xs), ih fun y hy => h y (List.mem_cons_of_mem x hy)]

/-- Unfolding equation for the positive-fuel case of the walker, with the
two passes named. -/
theorem walkScanF_succ (fuel : Nat) (es : List Entry) (rp : List String) :
    walkScanF (fuel + 1) es rp =
      es.flatMap (fileContrib rp) ++ es.flatMap (dirContrib fuel rp) := rfl

/-- An entry that contributes nothing to either pass can be removed from a
directory listing without changing the walk's findings — at every fuel, so
in particular the entry's subtree is never consulted. -/
theorem walkScanF_drop (e : Entry)
    (hf : ∀ rp, fileContrib rp e = [])
    (hd : ∀ fuel rp, dirContrib fuel rp e = []) :
    ∀ (fuel : Nat) (pre post : List Entry) (rp : List String),
      walkScanF fuel (pre ++ e :: post) rp = walkScanF fuel (pre ++ post) rp := by
  intro fuel pre post rp
  cases fuel with
  | zero => rfl
  | succ n =>
    rw [walkScanF_succ, walkScanF_succ]
    simp [List.flatMap_append, hf, hd]

/-- The per-line catalog loop, characterized: one finding per matching
rule, in catalog order. -/
theorem scanLine_eq (rp : String) (i : Nat) (s : String) :
    scanLine rp i s = ((PATTERNS.filter fun r => reSearch r.1 s).map fun r =>
      { severity := r.2.1, category := r.2.2.1, file := rp, line := i,
        message := r.2.2.2, snippet := strTake 120 s }) :=
  flatMap_if_singleton PATTERNS _ _

theorem snippet_of_mem_scanLine {rp : String} {i : Nat} {s : String} {f : Finding}
    (h : f ∈ scanLine rp i s) : f.snippet = strTake 120 s := by
  rw [scanLine_eq] at h
  rcases List.mem_map.mp h with ⟨r, _, rfl⟩
  rfl

theorem countSeverity_pos_iff (fs : List Finding) (sev : String) :
    0 < countSeverity fs sev ↔ ∃ f, f ∈ fs ∧ f.severity = sev := by
  unfold countSeverity
  rw [List.length_pos_iff_exists_mem]
  constructor
  · rintro ⟨f, hf⟩
    rw [List.mem_filter] at hf
    exact ⟨f, hf.1, by simpa using hf.2⟩
  · rintro ⟨f, hf, hs⟩
    exact ⟨f, List.mem_filter.mpr ⟨hf, by simp [hs]⟩⟩

theorem foldl_step_flatMap {α β : Type} {step : List β → α → List β} {g : α → List β}
    (h : ∀ a e, step a e = a ++ g e) :
    ∀ (l : List α) (acc : List β), l.foldl step acc = acc ++ l.flatMap g := by
  intro l
  induction l with
  | nil => intro acc; simp
  | cons x xs ih =>
    intro acc
    rw [List.foldl_cons, h, ih, List.flatMap_cons, List.append_assoc]

theorem walkScanFrom_eq :
    ∀ (fuel : Nat) (es : List Entry) (rp : List String) (acc : List Finding),
      walkScanFrom fuel acc es rp = acc ++ walkScanF fuel es rp := by
  intro fuel
  induction fuel with
  | zero => intro es rp acc; simp [walkScanFrom, walkScanF]
  | succ n ih =>
    intro es rp acc
    have hstep : ∀ (a : List Finding) (e : Entry),
        (match e with
          | .file _ _ => a
          | .dir m cs => if m ∈ SKIP_DIRS then a else walkScanFrom n a cs (rp ++ [m]))
        = a ++ dirContrib n rp e := by
      intro a e
      cases e with
      | file nm c => simp [dirContrib]
      | dir m cs =>
        by_cases hm : m ∈ SKIP_DIRS
        · simp [dirContrib, hm]
        · simp [dirContrib, hm, ih]
    show es.foldl (fun a e =>
        match e with
        | .file _ _ => a
        | .dir m cs => if m ∈ SKIP_DIRS then a else walkScanFrom n a cs (rp ++ [m]))
        (es.foldl (fun a e => a ++ fileContrib rp e) acc)
      = acc ++ walkScanF (n + 1) es rp
    rw [foldl_step_flatMap hstep, foldl_append_acc, walkScanF_succ, List.append_assoc]

/-! ## The claims -/

/-- C1: for every scan invocation (valid root directory), the process exit
status is nonzero if and only if at least one finding of severity
"critical" exists in the full unfiltered finding list, and the display
severity floor never changes the exit status. -/
theorem critical_fail_verdict :
    ∀ (fuel : Nat) (w : Entry) (r : List String) (floor : String)
      (ts : Option (List TPath)),
      isDirAt w r = true →
      ((mainExitCode fuel w r floor ts ≠ 0) ↔
        ∃ f, f ∈ scanDirectory fuel w r ts ∧ f.severity = "critical")
      ∧ (∀ floor2, mainExitCode fuel w r floor ts = mainExitCode fuel w r floor2 ts) := by
  intro fuel w r floor ts h
  have hmain : ∀ fl, mainExitCode fuel w r fl ts =
      if 0 < countSeverity (scanDirectory fuel w r ts) "critical" then 1 else 0 := by
    intro fl
    simp [mainExitCode, mainRun, h]
  constructor
  · rw [hmain floor]
    by_cases hp : 0 < countSeverity (scanDirectory fuel w r ts) "critical"
    · simp only [hp, if_true]
      exact iff_of_true one_ne_zero ((countSeverity_pos_iff _ _).mp hp)
    · simp only [hp, if_false]
      exact iff_of_false (by simp) fun hex => hp ((countSeverity_pos_iff _ _).mpr hex)
  · intro fl2
    rw [hmain floor, hmain fl2]

/-- Witness for C1 at a concrete world with a critical finding. -/
theorem critical_fail_verdict_witness :
    isDirAt demoWorld demoRoot = true
    ∧ ((mainExitCode 3 demoWorld demoRoot "low" none ≠ 0) ↔
        ∃ f, f ∈ scanDirectory 3 demoWorld demoRoot none ∧ f.severity = "critical")
    ∧ mainExitCode 3 demoWorld demoRoot "low" none
        = mainExitCode 3 demoWorld demoRoot "critical" none :=
  ⟨by decide,
    (critical_fail_verdict 3 demoWorld demoRoot "low" none (by decide)).1,
    (critical_fail_verdict 3 demoWorld demoRoot "low" none (by decide)).2 "critical"⟩

/-- C2: if floor `s1` is at least as strict as `s2` (numerically smaller
or equal severity rank, critical = rank 0), every finding displayed at
floor `s1` is also displayed at floor `s2`, and the exit verdict is the
same under both floors. -/
theorem severity_floor_monotone :
    ∀ (s1 s2 : String), sevRank s1 ≤ sevRank s2 →
      (∀ (findings : List Finding) (f : Finding),
          f ∈ displayedFindings findings s1 → f ∈ displayedFindings findings s2)
      ∧ (∀ (fuel : Nat) (w : Entry) (r : List String) (ts : Option (List TPath)),
          mainExitCode fuel w r s1 ts = mainExitCode fuel w r s2 ts) := by
  intro s1 s2 h12
  constructor
  · intro findings f hf
    unfold displayedFindings at hf ⊢
    have h1 : f ∈ filteredFindings findings s1 :=
      (List.perm_insertionSort _ _).mem_iff.mp hf
    have h2 : f ∈ filteredFindings findings s2 := by
      rw [filteredFindings, List.mem_filter] at h1 ⊢
      refine ⟨h1.1, ?_⟩
      have := of_decide_eq_true h1.2
      exact decide_eq_true (le_trans this h12)
    exact (List.perm_insertionSort _ _).mem_iff.mpr h2
  · intro fuel w r ts
    by_cases h : isDirAt w r = true <;> simp [mainExitCode, mainRun, h]

/-- Witness for C2 at the concrete floors high/low and a concrete world. -/
theorem severity_floor_monotone_witness :
    (demoFinding ∈ displayedFindings [demoFinding] "high" →
      demoFinding ∈ displayedFindings [demoFinding] "low")
    ∧ mainExitCode 3 demoWorld demoRoot "high" none
        = mainExitCode 3 demoWorld demoRoot "low" none :=
  ⟨(severity_floor_monotone "high" "low" (by decide)).1 [demoFinding] demoFinding,
    (severity_floor_monotone "high" "low" (by decide)).2 3 demoWorld demoRoot none⟩

/-- C3: a line whose trimmed content starts with "//", "#" or "*" produces
no findings; the line `password = "abc123"` outside a comment yields
exactly the critical "Hardcoded Secret" finding, and the same text behind
"// " yields none. -/
theorem comment_lines_yield_nothing :
    (∀ (rp : String) (i : Nat) (line : String),
        isComment (strip line) = true → lineFindings rp i line = [])
    ∧ lineFindings "app.js" 1 "password = \"abc123\"" =
        [{ severity := "critical", category := "Hardcoded Secret", file := "app.js",
           line := 1, message := "Hardcoded password detected",
           snippet := "password = \"abc123\"" }]
    ∧ lineFindings "app.js" 1 "// password = \"abc123\"" = [] := by
  refine ⟨?_, by decide, by decide⟩
  intro rp i line h
  simp [lineFindings, h]

/-- Witness for C3 at a concrete comment line. -/
theorem comment_lines_yield_nothing_witness :
    lineFindings "config.py" 7 "# password = \"abc123\"" = [] :=
  comment_lines_yield_nothing.1 "config.py" 7 "# password = \"abc123\"" (by decide)

/-- C4: on a non-comment line, every rule of the catalog whose pattern
matches (case-insensitively) emits exactly one finding, in catalog order,
with no deduplication — the per-line finding list is exactly the list of
matching rules mapped to findings, so a line matching n rules yields n
findings; per-file findings are the concatenation over lines in order
(1-based), giving file-then-line-then-rule ordering overall. -/
theorem catalog_rules_fire_individually :
    ∀ (rp : String) (i : Nat) (s : String),
      scanLine rp i s = ((PATTERNS.filter fun r => reSearch r.1 s).map fun r =>
        { severity := r.2.1, category := r.2.2.1, file := rp, line := i,
          message := r.2.2.2, snippet := strTake 120 s })
      ∧ (scanLine rp i s).length = (PATTERNS.filter fun r => reSearch r.1 s).length
      ∧ ∀ (lines : List String),
          scanFile (some lines) rp =
            (List.enumFrom 1 lines).flatMap fun p => lineFindings rp p.1 p.2 := by
  intro rp i s
  refine ⟨scanLine_eq rp i s, ?_, fun lines => rfl⟩
  rw [scanLine_eq, List.length_map]

/-- C5 counterexample: supplying the empty explicit file subset does not
skip traversal — Python's `if target_files:` is falsy for `[]`, so the full
walk runs and produces findings, where the claim as stated would require
only the (zero) supplied paths to be scanned. -/
theorem empty_subset_still_walks :
    scanDirectory 3 demoWorld demoRoot (some [])
      = scanDirectory 3 demoWorld demoRoot none
    ∧ scanDirectory 3 demoWorld demoRoot (some []) ≠ [] :=
  ⟨rfl, by decide⟩

/-- C5 (amended): whenever the caller supplies a NONEMPTY explicit file
subset, traversal is skipped entirely — the result is exactly the
concatenation of the supplied targets' contributions, it depends only on
the world's entries at the resolved target paths (each resolved relative
to the root when not absolute), and a nonexistent path contributes zero
findings. -/
theorem nonempty_subset_skips_traversal :
    ∀ (fuel : Nat) (w : Entry) (r : List String) (ts : List TPath), ts ≠ [] →
      scanDirectory fuel w r (some ts) = ts.flatMap (targetScan w r)
      ∧ (∀ w2 : Entry,
          (∀ t ∈ ts, entryAt w2 (resolveTarget r t) = entryAt w (resolveTarget r t)) →
          scanDirectory fuel w2 r (some ts) = scanDirectory fuel w r (some ts))
      ∧ (∀ t ∈ ts, isFileAt w (resolveTarget r t) = false → targetScan w r t = []) := by
  intro fuel w r ts hne
  have hemp : ts.isEmpty = false := by
    cases ts with
    | nil => exact absurd rfl hne
    | cons t ts => rfl
  refine ⟨by simp [scanDirectory, hemp], ?_, ?_⟩
  · intro w2 hw
    simp only [scanDirectory, hemp, Bool.false_eq_true, if_false]
    refine flatMap_congr_mem fun t ht => ?_
    have he := hw t ht
    simp [targetScan, isFileAt, contentAt, he]
  · intro t ht hnf
    simp [targetScan, hnf]

/-- Witness for C5 (amended) at a concrete two-element subset, the second
element nonexistent. -/
theorem nonempty_subset_skips_traversal_witness :
    scanDirectory 3 demoWorld demoRoot
        (some [⟨false, ["app.js"]⟩, ⟨false, ["missing.js"]⟩])
      = [(⟨false, ["app.js"]⟩ : TPath), ⟨false, ["missing.js"]⟩].flatMap
          (targetScan demoWorld demoRoot)
    ∧ targetScan demoWorld demoRoot ⟨false, ["missing.js"]⟩ = [] :=
  ⟨(nonempty_subset_skips_traversal 3 demoWorld demoRoot _ (by decide)).1,
    (nonempty_subset_skips_traversal 3 demoWorld demoRoot
        [⟨false, ["app.js"]⟩, ⟨false, ["missing.js"]⟩] (by decide)).2.2
      ⟨false, ["missing.js"]⟩ (by decide) (by decide)⟩

/-- C6: a directory whose name is in the excluded set contributes nothing
to the walk at any depth: removing it (with its entire subtree, whatever
that subtree contains) leaves the findings unchanged, so pruning happens
before recursion and excluded subtrees are never opened. -/
theorem excluded_dirs_pruned :
    ∀ (d : String), d ∈ SKIP_DIRS →
      ∀ (cs : List Entry) (fuel : Nat) (pre post : List Entry) (rp : List String),
        walkScanF fuel (pre ++ Entry.dir d cs :: post) rp
          = walkScanF fuel (pre ++ post) rp := by
  intro d hd cs fuel pre post rp
  exact walkScanF_drop (Entry.dir d cs) (fun rp2 => rfl)
    (fun fuel2 rp2 => by simp [dirContrib, hd]) fuel pre post rp

/-- Witness for C6: a dependency-cache directory holding a file whose
content would match is invisible to the walk. -/
theorem excluded_dirs_pruned_witness :
    walkScanF 3
        [Entry.dir "node_modules" [Entry.file "bad.js" (some ["password = \"abc123\""])]] []
      = walkScanF 3 [] [] :=
  excluded_dirs_pruned "node_modules" (by decide)
    [Entry.file "bad.js" (some ["password = \"abc123\""])] 3 [] [] []

/-- C7: the invocation fails (exit 1) with nothing scanned exactly when
the root is missing or not a directory; an unreadable file contributes no
findings and is equivalent to its absence for the walk (the scan of the
remaining files continues); decoding is lenient by construction — file
content, when readable, is always a list of decoded lines and scanning it
is total. -/
theorem fatal_only_bad_root :
    ∀ (fuel : Nat) (w : Entry) (r : List String) (floor : String)
      (ts : Option (List TPath)),
      (mainRun fuel w r floor ts = none ↔ isDirAt w r = false)
      ∧ (isDirAt w r = false → mainExitCode fuel w r floor ts = 1)
      ∧ (∀ rp : String, scanFile none rp = [])
      ∧ (∀ (fuel2 : Nat) (pre post : List Entry) (n : String) (rp : List String),
          walkScanF fuel2 (pre ++ Entry.file n none :: post) rp
            = walkScanF fuel2 (pre ++ post) rp) := by
  intro fuel w r floor ts
  refine ⟨?_, ?_, fun rp => rfl, ?_⟩
  · unfold mainRun
    by_cases h : isDirAt w r = true <;> simp [h]
  · intro h
    simp [mainExitCode, mainRun, h]
  · intro fuel2 pre post n rp
    exact walkScanF_drop (Entry.file n none) (fun rp2 => by simp [fileContrib, scanFile])
      (fun f2 rp2 => rfl) fuel2 pre post rp

/-- Witness for C7 at a concrete missing root and a concrete unreadable
file. -/
theorem fatal_only_bad_root_witness :
    (mainRun 3 demoWorld ["missing"] "low" none = none ↔
      isDirAt demoWorld ["missing"] = false)
    ∧ mainExitCode 3 demoWorld ["missing"] "low" none = 1
    ∧ walkScanF 3 [Entry.file "locked.js" none] [] = walkScanF 3 [] [] :=
  ⟨(fatal_only_bad_root 3 demoWorld ["missing"] "low" none).1,
    (fatal_only_bad_root 3 demoWorld ["missing"] "low" none).2.1 (by decide),
    (fatal_only_bad_root 3 demoWorld ["missing"] "low" none).2.2.2 3 [] [] "locked.js" []⟩

/-- C8: the scan is a pure function of its inputs — an invocation started
from any leftover accumulator state equals that state followed by the
fresh-accumulator scan, so each invocation's result list is determined by
(world, root, subset, catalog) alone and two scans of an unchanged tree
return identical lists in content and order. -/
theorem scan_pure_function_of_inputs :
    ∀ (acc : List Finding) (fuel : Nat) (w : Entry) (r : List String)
      (ts : Option (List TPath)),
      scanDirectoryFrom acc fuel w r ts = acc ++ scanDirectory fuel w r ts := by
  intro acc fuel w r ts
  cases ts with
  | none => exact walkScanFrom_eq fuel _ [] acc
  | some l =>
    by_cases he : l.isEmpty
    · simp only [scanDirectoryFrom, scanDirectory, he, if_true]
      exact walkScanFrom_eq fuel _ [] acc
    · simp only [scanDirectoryFrom, scanDirectory, he, if_false]
      exact foldl_step_flatMap (fun a e => rfl) l acc

/-- C9 counterexample: for a matched line with leading whitespace the
snippet is not the raw line truncated to 120 characters — the code
truncates the TRIMMED line (`stripped[:120]`), so the leading spaces are
missing from the snippet. -/
theorem snippet_is_not_raw_line :
    (lineFindings "app.js" 1 "  password = \"a\"").map (fun f => f.snippet)
      = ["password = \"a\""]
    ∧ strTake 120 "  password = \"a\"" ≠ "password = \"a\"" :=
  ⟨by decide, by decide⟩

/-- C9 (amended): every finding's snippet is the line's TRIMMED content
truncated to at most 120 characters, preserved unchanged up to that bound
(in particular its length never exceeds 120, whatever the line length). -/
theorem snippet_truncated_trimmed :
    ∀ (rp : String) (i : Nat) (line : String) (f : Finding),
      f ∈ lineFindings rp i line →
      f.snippet = strTake 120 (strip line) ∧ strLen f.snippet ≤ 120 := by
  intro rp i line f h
  simp only [lineFindings] at h
  by_cases hc : isComment (strip line) = true
  · rw [if_pos hc] at h
    cases h
  · rw [if_neg hc] at h
    have hs := snippet_of_mem_scanLine h
    refine ⟨hs, ?_⟩
    rw [hs]
    simp only [strLen, strTake, List.length_take]
    exact min_le_left _ _

/-- Witness for C9 (amended) at a concrete matched line. -/
theorem snippet_truncated_trimmed_witness :
    demoFinding.snippet = strTake 120 (strip "password = \"abc123\"")
    ∧ strLen demoFinding.snippet ≤ 120 :=
  snippet_truncated_trimmed "app.js" 1 "password = \"abc123\"" demoFinding (by decide)

/-- C10: with a supplied explicit subset the extension allow-list is not
applied — any target resolving to an existing file is scanned and its
findings appear in the result, whatever its extension; in full-traversal
mode a file whose extension is outside the allow-list is invisible to the
walk (removing it changes nothing, whatever its content). -/
theorem subset_ignores_extension_allowlist :
    (∀ (w : Entry) (r : List String) (ts : List TPath) (t : TPath) (f : Finding)
        (fuel : Nat), t ∈ ts → f ∈ targetScan w r t →
        f ∈ scanDirectory fuel w r (some ts))
    ∧ (∀ (name : String) (c : Option (List String)),
        extOf name ∉ SOURCE_EXTENSIONS →
        ∀ (fuel : Nat) (pre post : List Entry) (rp : List String),
          walkScanF fuel (pre ++ Entry.file name c :: post) rp
            = walkScanF fuel (pre ++ post) rp) := by
  constructor
  · intro w r ts t f fuel ht hf
    have hemp : ts.isEmpty = false := by
      cases ts with
      | nil => cases ht
      | cons a l => rfl
    simp only [scanDirectory, hemp, Bool.false_eq_true, if_false]
    exact List.mem_flatMap.mpr ⟨t, ht, hf⟩
  · intro name c hext fuel pre post rp
    exact walkScanF_drop (Entry.file name c) (fun rp2 => by simp [fileContrib, hext])
      (fun f2 rp2 => rfl) fuel pre post rp

/-- Witness for C10: a .txt file (extension outside the allow-list) is
scanned when supplied explicitly, and is invisible to the full walk. -/
theorem subset_ignores_extension_allowlist_witness :
    demoTxtFinding ∈ scanDirectory 3 demoWorld demoRoot (some [⟨false, ["creds.txt"]⟩])
    ∧ extOf "creds.txt" ∉ SOURCE_EXTENSIONS
    ∧ walkScanF 3 [Entry.file "creds.txt" (some ["password = \"abc123\""])] []
        = walkScanF 3 [] [] :=
  ⟨subset_ignores_extension_allowlist.1 demoWorld demoRoot [⟨false, ["creds.txt"]⟩]
      ⟨false, ["creds.txt"]⟩ demoTxtFinding 3 (by decide) (by decide),
    by decide,
    subset_ignores_extension_allowlist.2 "creds.txt" (some ["password = \"abc123\""])
      (by decide) 3 [] [] []⟩

end SecurityScan
